import Mathlib

/-!
Shallow embedding of the bugsink-mcp adapter (src/src/bugsink-client.ts and
src/src/index.ts) and proofs about its formatting, query-serialization and
error-handling behaviour.

The repository ships two versions of index.ts (v0.1.0 and v0.2.0, concatenated
in src/src/index.ts); their shared helpers (getIssueStatus, formatIssue,
formatEvent) are textually identical between the two versions, so a single
embedding covers both.  Only the v0.1 BugsinkClient is present in
src/src/bugsink-client.ts; where a claim depends on v0.2-only client methods
that are absent from src/, the missing piece is modelled from the spec and
marked as such in its doc comment.

JavaScript truthiness is embedded explicitly: a string is truthy iff it is
non-empty, a number iff it is non-zero, and an optional field iff it is
present and its value is truthy (arrays and objects are always truthy).
-/

/-- `Issue` record as declared in src/src/bugsink-client.ts. -/
structure Issue where
  id : String
  project : Nat
  digest_order : Nat
  first_seen : String
  last_seen : String
  digested_event_count : Nat
  stored_event_count : Nat
  calculated_type : String
  calculated_value : String
  transaction : String
  is_resolved : Bool
  is_resolved_by_next_release : Bool
  is_muted : Bool
deriving Repr, DecidableEq

/-- `getIssueStatus` from src/src/index.ts (lines 46-50, identical at 387-391). -/
def getIssueStatus (issue : Issue) : String :=
  if issue.is_resolved then "resolved"
  else if issue.is_muted then "muted"
  else "unresolved"

/-- The line list built by `formatIssue` (src/src/index.ts lines 53-63):
the JS array contains `null` for an absent transaction and `.filter(Boolean)`
drops it; the transaction entry is also dropped when the string is empty
(JS string truthiness).  Every other entry is a non-empty template string, so
`filter(Boolean)` keeps it. -/
def formatIssueLines (issue : Issue) : List String :=
  ([ some ("[" ++ issue.calculated_type ++ "] " ++ issue.calculated_value),
     some ("  ID: " ++ issue.id),
     some ("  Status: " ++ getIssueStatus issue),
     some ("  Occurrences: " ++ toString issue.digested_event_count),
     some ("  First seen: " ++ issue.first_seen),
     some ("  Last seen: " ++ issue.last_seen),
     if issue.transaction = "" then none
       else some ("  Transaction: " ++ issue.transaction) ] : List (Option String)).filterMap id

/-- `formatIssue` from src/src/index.ts (lines 53-63, identical at 394-404). -/
def formatIssue (issue : Issue) : String :=
  String.intercalate "\n" (formatIssueLines issue)

/-- `StackFrame` record from src/src/bugsink-client.ts. -/
structure StackFrame where
  filename : String
  function : String
  lineno : Option Nat := none
  colno : Option Nat := none
  in_app : Option Bool := none
  context_line : Option String := none
  pre_context : Option (List String) := none
  post_context : Option (List String) := none
deriving Repr, DecidableEq

/-- The `{ frames }` wrapper of an exception stacktrace. -/
structure Stacktrace where
  frames : List StackFrame
deriving Repr, DecidableEq

/-- `ExceptionValue` record from src/src/bugsink-client.ts. -/
structure ExceptionValue where
  type : String
  value : String
  stacktrace : Option Stacktrace := none
deriving Repr, DecidableEq

/-- The `{ values? }` wrapper of `EventData.exception`. -/
structure ExceptionBlock where
  values : Option (List ExceptionValue) := none
deriving Repr, DecidableEq

/-- `EventData.request` from src/src/bugsink-client.ts. -/
structure RequestData where
  url : Option String := none
  method : Option String := none
  headers : Option (List (String × String)) := none
deriving Repr, DecidableEq

/-- Shape shared by `EventData.browser` and `EventData.os`. -/
structure AgentData where
  name : Option String := none
  version : Option String := none
deriving Repr, DecidableEq

/-- `EventData` record from src/src/bugsink-client.ts; `contexts` values are
opaque (`Record<string, unknown>`) and only their key set matters to the code,
so they are embedded as key lists paired with printed values. -/
structure EventData where
  exception : Option ExceptionBlock := none
  message : Option String := none
  level : Option String := none
  platform : Option String := none
  tags : Option (List (String × String)) := none
  contexts : Option (List (String × String)) := none
  request : Option RequestData := none
  browser : Option AgentData := none
  os : Option AgentData := none
deriving Repr, DecidableEq

/-- `Event` record from src/src/bugsink-client.ts. -/
structure Event where
  id : String
  event_id : String
  issue : String
  project : Nat
  timestamp : String
  ingested_at : String
  digested_at : String
  digest_order : Nat
  grouping : Nat
  data : Option EventData := none
deriving Repr, DecidableEq

/-- `frame.lineno ? `:${frame.lineno}` : ''` — a numeric field is truthy iff
present and non-zero. -/
def numSuffix (o : Option Nat) : String :=
  match o with
  | some n => if n = 0 then "" else ":" ++ toString n
  | none => ""

/-- The lines pushed for one stack frame inside `formatEvent`
(src/src/index.ts lines 97-102): the location line plus, when
`frame.context_line` is truthy, the trimmed context line. -/
def frameLines (frame : StackFrame) : List String :=
  ("      " ++ frame.filename ++ numSuffix frame.lineno ++ numSuffix frame.colno
      ++ " in " ++ frame.function)
    :: (match frame.context_line with
        | some c => if c = "" then [] else ["        > " ++ c.trim]
        | none => [])

/-- The lines pushed for one `ExceptionValue` inside `formatEvent`
(src/src/index.ts lines 90-105): the `type: value` line plus, when
`includeStacktrace` is set and `exc.stacktrace?.frames` is truthy (an array is
always truthy, even empty), the stacktrace header followed by the reversed
frame list truncated to its first 15 entries. -/
def excLines (includeStacktrace : Bool) (exc : ExceptionValue) : List String :=
  ("    " ++ exc.type ++ ": " ++ exc.value)
    :: (match exc.stacktrace with
        | some st =>
          if includeStacktrace then
            "    Stacktrace (most recent first):"
              :: (st.frames.reverse.take 15).flatMap frameLines
          else []
        | none => [])

/-- A line gated on string truthiness: `if (data.level) lines.push(...)` etc. -/
def strOptLine (pre : String) (o : Option String) : List String :=
  match o with
  | some s => if s = "" then [] else [pre ++ s]
  | none => []

/-- `if (data.request?.url)` then `  Request: ${method || 'GET'} ${url}`:
the line is pushed iff the request object is present and its url truthy;
a falsy method falls back to `GET`. -/
def requestLines (o : Option RequestData) : List String :=
  match o with
  | some req =>
    match req.url with
    | some u =>
      if u = "" then []
      else
        ["  Request: "
           ++ (match req.method with
               | some m => if m = "" then "GET" else m
               | none => "GET")
           ++ " " ++ u]
    | none => []
  | none => []

/-- `if (data.browser?.name)` then `  Browser: ${name} ${version || ''}`
(same shape for `os`): pushed iff the object is present and its name truthy;
an absent version contributes the empty string after the separating space. -/
def agentLines (pre : String) (o : Option AgentData) : List String :=
  match o with
  | some a =>
    match a.name with
    | some n =>
      if n = "" then []
      else [pre ++ n ++ " " ++ (match a.version with | some v => v | none => "")]
    | none => []
  | none => []

/-- The lines pushed for the exception block: `if (data.exception?.values)`
pushes the `  Exception:` header and then iterates the values (even when the
array is empty, since an empty array is truthy in JS). -/
def exceptionLines (includeStacktrace : Bool) (o : Option ExceptionBlock) :
    List String :=
  match o with
  | some blk =>
    match blk.values with
    | some vals => "  Exception:" :: vals.flatMap (excLines includeStacktrace)
    | none => []
  | none => []

/-- The full line list built by `formatEvent`
(src/src/index.ts lines 66-122, identical at 407-463). -/
def formatEventLines (event : Event) (includeStacktrace : Bool) : List String :=
  [ "Event " ++ event.id,
    "  Event ID: " ++ event.event_id,
    "  Timestamp: " ++ event.timestamp,
    "  Ingested: " ++ event.ingested_at ]
  ++ (match event.data with
      | none => []
      | some data =>
        strOptLine "  Level: " data.level
        ++ strOptLine "  Platform: " data.platform
        ++ strOptLine "  Message: " data.message
        ++ exceptionLines includeStacktrace data.exception
        ++ requestLines data.request
        ++ agentLines "  Browser: " data.browser
        ++ agentLines "  OS: " data.os)

/-- `formatEvent` from src/src/index.ts (lines 66-122, identical at 407-463). -/
def formatEvent (event : Event) (includeStacktrace : Bool) : String :=
  String.intercalate "\n" (formatEventLines event includeStacktrace)

/-- A closed sample issue used by concrete witnesses. -/
def sampleIssue : Issue :=
  { id := "i-1", project := 7, digest_order := 1, first_seen := "2024-01-01",
    last_seen := "2024-01-02", digested_event_count := 3,
    stored_event_count := 3, calculated_type := "TypeError",
    calculated_value := "x is undefined", transaction := "GET /",
    is_resolved := false, is_resolved_by_next_release := false,
    is_muted := true }

/-- C1: the displayed status is derived from the flags with precedence
resolved > muted > unresolved: a resolved issue reads "resolved" regardless
of the muted flag; otherwise a muted issue reads "muted"; otherwise
"unresolved". -/
theorem c1_issue_status (issue : Issue) :
    (issue.is_resolved = true → getIssueStatus issue = "resolved")
    ∧ (issue.is_resolved = false → issue.is_muted = true →
        getIssueStatus issue = "muted")
    ∧ (issue.is_resolved = false → issue.is_muted = false →
        getIssueStatus issue = "unresolved") := by
  refine ⟨fun h => ?_, fun h h' => ?_, fun h h' => ?_⟩ <;>
    simp [getIssueStatus, h] <;> simp [h']

/-- C1 witness: the status derivation evaluated on a concrete muted,
unresolved issue. -/
theorem c1_issue_status_witness :
    sampleIssue.is_resolved = false ∧ sampleIssue.is_muted = true
    ∧ getIssueStatus sampleIssue = "muted" :=
  ⟨rfl, rfl, (c1_issue_status sampleIssue).2.1 rfl rfl⟩

/-- `PaginatedResponse` record from src/src/bugsink-client.ts. -/
structure PaginatedResponse (α : Type) where
  next : Option String
  previous : Option String
  results : List α
deriving Repr, DecidableEq

/-- `Project` record from src/src/bugsink-client.ts. -/
structure Project where
  id : Nat
  team : String
  name : String
  slug : String
  dsn : String
  digested_event_count : Nat
  stored_event_count : Nat
  alert_on_new_issue : Bool
  alert_on_regression : Bool
  alert_on_unmute : Bool
  visibility : String
  retention_max_event_count : Nat
deriving Repr, DecidableEq

/-- `Team` record from src/src/bugsink-client.ts. -/
structure Team where
  id : String
  name : String
  visibility : String
deriving Repr, DecidableEq

/-- `Release` record as rendered by the v0.2 tools in src/src/index.ts
(list_releases and get_release): id, project ref, version (may be the empty
string), date_released, and optional semver fields. -/
structure Release where
  id : String
  project : Nat
  version : String
  date_released : String
  semver : Option String := none
  is_semver : Option Bool := none
deriving Repr, DecidableEq

/-- Options object accepted by `BugsinkClient.listIssues`
(src/src/bugsink-client.ts lines 165-168). -/
structure ListIssuesOptions where
  status : Option String := none
  limit : Option Nat := none
deriving Repr, DecidableEq

/-- The query parameters assembled by `BugsinkClient.listIssues`
(src/src/bugsink-client.ts lines 169-179): `project` is always set first;
`status` is set iff `options?.status` is truthy (present and non-empty);
`limit` is set iff `options?.limit` is truthy (present and non-zero).
`URLSearchParams.set` with distinct keys preserves insertion order. -/
def listIssuesQuery (projectId : Nat) (options : Option ListIssuesOptions) :
    List (String × String) :=
  ("project", toString projectId)
    :: ((match options with
         | some o =>
           (match o.status with
            | some s => if s = "" then [] else [("status", s)]
            | none => [])
           ++ (match o.limit with
               | some l => if l = 0 then [] else [("limit", toString l)]
               | none => [])
         | none => []))

/-- Options object accepted by `BugsinkClient.listEvents`
(src/src/bugsink-client.ts lines 192-194). -/
structure ListEventsOptions where
  limit : Option Nat := none
deriving Repr, DecidableEq

/-- The query parameters assembled by `BugsinkClient.listEvents`
(src/src/bugsink-client.ts lines 195-200): `issue` always set; `limit` set
iff `options?.limit` is truthy (present and non-zero). -/
def listEventsQuery (issueId : String) (options : Option ListEventsOptions) :
    List (String × String) :=
  ("issue", issueId)
    :: (match options with
        | some o =>
          (match o.limit with
           | some l => if l = 0 then [] else [("limit", toString l)]
           | none => [])
        | none => [])

/-- Modelled from the spec: the v0.2 `BugsinkClient.listIssues` — the client
version the v0.2 list_issues tool calls with sort/order is absent from src/
(src/src/bugsink-client.ts holds only the v0.1 client) — serializes the
optional configuration per the spec's words: "serialize only the fields that
are present into query parameters — absent fields are omitted entirely". -/
structure ListIssuesOptionsV2 where
  status : Option String := none
  limit : Option Nat := none
  sort : Option String := none
  order : Option String := none
deriving Repr, DecidableEq

/-- Modelled from the spec: query assembly of the v0.2 `listIssues` (absent
from src/): each of status, limit, sort, order becomes a parameter exactly
when present. -/
def listIssuesQueryV2 (projectId : Nat) (options : ListIssuesOptionsV2) :
    List (String × String) :=
  ("project", toString projectId)
    :: ((match options.status with | some s => [("status", s)] | none => [])
        ++ (match options.limit with
            | some l => [("limit", toString l)] | none => [])
        ++ (match options.sort with | some s => [("sort", s)] | none => [])
        ++ (match options.order with | some o => [("order", o)] | none => []))

/-- An HTTP response as seen by `BugsinkClient.fetch`: status code and body
text. -/
structure HttpResponse where
  status : Nat
  body : String
deriving Repr, DecidableEq

/-- `Response.ok` of the fetch API: status in the range 200-299. -/
def responseOk (r : HttpResponse) : Bool :=
  200 ≤ r.status && r.status ≤ 299

/-- The response handling shared by every `BugsinkClient` method
(src/src/bugsink-client.ts lines 121-139): a non-ok response throws
`Error(`Bugsink API error (${status}): ${body}`)`; an ok response hands the
body to the JSON parser.  Errors are embedded as the thrown message string. -/
def fetchOutcome (r : HttpResponse) : Except String String :=
  if responseOk r then Except.ok r.body
  else Except.error ("Bugsink API error (" ++ toString r.status ++ "): " ++ r.body)

/-- The `{success, message}` value returned by `testConnection`. -/
structure ConnResult where
  success : Bool
  message : String
deriving Repr, DecidableEq

/-- `BugsinkClient.testConnection` (src/src/bugsink-client.ts lines 215-228)
as a function of the outcome of its inner `listProjects` call: a thrown error
(embedded as its message string) is caught and converted; a successful page
reports the project count. -/
def testConnection (outcome : Except String (PaginatedResponse Project)) :
    ConnResult :=
  match outcome with
  | Except.ok projects =>
    { success := true,
      message := "Connected successfully. Found "
        ++ toString projects.results.length ++ " project(s)." }
  | Except.error e => { success := false, message := e }

/-- The per-project summary line of the list_projects tool
(src/src/index.ts lines 142-144). -/
def projectLine (p : Project) : String :=
  "- " ++ p.name ++ " (ID: " ++ toString p.id ++ ", slug: " ++ p.slug
    ++ ")\n  Events: " ++ toString p.stored_event_count ++ " stored, "
    ++ toString p.digested_event_count ++ " digested"

/-- Text produced by the list_projects tool from the client response
(src/src/index.ts lines 133-149). -/
def listProjectsText (response : PaginatedResponse Project) : String :=
  if response.results.length = 0 then "No projects found."
  else
    "Found " ++ toString response.results.length ++ " project(s):\n\n"
      ++ String.intercalate "\n" (response.results.map projectLine)

/-- The per-team summary line of the list_teams tool
(src/src/index.ts lines 166-168). -/
def teamLine (t : Team) : String :=
  "- " ++ t.name ++ " (ID: " ++ t.id ++ ", visibility: " ++ t.visibility ++ ")"

/-- Text produced by the list_teams tool (src/src/index.ts lines 157-173). -/
def listTeamsText (response : PaginatedResponse Team) : String :=
  if response.results.length = 0 then "No teams found."
  else
    "Found " ++ toString response.results.length ++ " team(s):\n\n"
      ++ String.intercalate "\n" (response.results.map teamLine)

/-- Text produced by the list_issues tool from the client response
(src/src/index.ts lines 185-199). -/
def listIssuesText (projectId : Nat) (response : PaginatedResponse Issue) :
    String :=
  if response.results.length = 0 then
    "No issues found for project " ++ toString projectId ++ "."
  else
    "Found " ++ toString response.results.length ++ " issue(s):\n\n"
      ++ String.intercalate "\n\n" (response.results.map formatIssue)

/-- Text produced by the list_events tool from the client response
(src/src/index.ts lines 228-242): events rendered without stacktrace detail,
joined by a separator. -/
def listEventsText (issueId : String) (response : PaginatedResponse Event) :
    String :=
  if response.results.length = 0 then
    "No events found for issue " ++ issueId ++ "."
  else
    "Found " ++ toString response.results.length ++ " event(s):\n\n"
      ++ String.intercalate "\n\n---\n\n"
           (response.results.map (fun e => formatEvent e false))

/-- The per-release summary line of the list_releases tool
(src/src/index.ts lines 818-820): `version || '(empty)'` substitutes the
placeholder for an empty version string. -/
def releaseLine (r : Release) : String :=
  "- " ++ (if r.version = "" then "(empty)" else r.version)
    ++ " (ID: " ++ r.id ++ ")\n  Released: " ++ r.date_released

/-- Text produced by the list_releases tool (src/src/index.ts lines 809-825). -/
def listReleasesText (projectId : Nat) (response : PaginatedResponse Release) :
    String :=
  if response.results.length = 0 then
    "No releases found for project " ++ toString projectId ++ "."
  else
    "Found " ++ toString response.results.length ++ " release(s):\n\n"
      ++ String.intercalate "\n" (response.results.map releaseLine)

/-- The line list built by the get_release tool (src/src/index.ts lines
838-845): the semver line is included iff `release.semver` is truthy; the
is-semver line iff `release.is_semver !== undefined` (so an explicit `false`
is still shown); `.filter(Boolean)` drops the nulls. -/
def formatReleaseLines (r : Release) : List String :=
  ([ some ("Release: " ++ (if r.version = "" then "(empty)" else r.version)),
     some ("  ID: " ++ r.id),
     some ("  Project: " ++ toString r.project),
     some ("  Released: " ++ r.date_released),
     (match r.semver with
      | some s => if s = "" then none else some ("  Semver: " ++ s)
      | none => none),
     (match r.is_semver with
      | some b => some ("  Is Semver: " ++ toString b)
      | none => none) ] : List (Option String)).filterMap id

/-- A JSON value as sent in an update request body. -/
inductive JsonValue where
  | str (s : String)
  | bool (b : Bool)
  | num (n : Nat)
deriving Repr, DecidableEq

/-- Arguments of the update_project tool (src/src/index.ts lines 707-715):
every field past project_id is optional. -/
structure ProjectUpdateArgs where
  name : Option String := none
  visibility : Option String := none
  alert_on_new_issue : Option Bool := none
  alert_on_regression : Option Bool := none
  alert_on_unmute : Option Bool := none
  retention_max_event_count : Option Nat := none
deriving Repr, DecidableEq

/-- One body entry for an optional argument: present iff the value is. -/
def optEntry (key : String) (o : Option JsonValue) : List (String × JsonValue) :=
  match o with
  | some v => [(key, v)]
  | none => []

/-- The request body built by the update_project tool (src/src/index.ts lines
716-720): `Object.fromEntries(Object.entries(updates).filter(([_, v]) =>
v !== undefined))` keeps exactly the keys whose value was supplied, in the
schema's declaration order; `false`, `0` and the empty string are not
`undefined` and are kept. -/
def updateProjectBody (u : ProjectUpdateArgs) : List (String × JsonValue) :=
  optEntry "name" (u.name.map JsonValue.str)
    ++ optEntry "visibility" (u.visibility.map JsonValue.str)
    ++ optEntry "alert_on_new_issue" (u.alert_on_new_issue.map JsonValue.bool)
    ++ optEntry "alert_on_regression" (u.alert_on_regression.map JsonValue.bool)
    ++ optEntry "alert_on_unmute" (u.alert_on_unmute.map JsonValue.bool)
    ++ optEntry "retention_max_event_count"
         (u.retention_max_event_count.map JsonValue.num)

/-- Arguments of the update_team tool (src/src/index.ts lines 757-760). -/
structure TeamUpdateArgs where
  name : Option String := none
  visibility : Option String := none
deriving Repr, DecidableEq

/-- The request body built by the update_team tool (src/src/index.ts lines
762-765): `Object.entries({ name, visibility }).filter(([_, v]) =>
v !== undefined)`. -/
def updateTeamBody (u : TeamUpdateArgs) : List (String × JsonValue) :=
  optEntry "name" (u.name.map JsonValue.str)
    ++ optEntry "visibility" (u.visibility.map JsonValue.str)

/-- Modelled from the spec: `BugsinkClient.updateProject` and
`BugsinkClient.updateTeam` belong to the v0.2 client, which is absent from
src/ (only the v0.1 client is there); per the spec, "only explicitly supplied
fields are sent", i.e. the constructed partial-update object is sent as the
JSON request body unchanged. -/
def sentUpdateBody (body : List (String × JsonValue)) : List (String × JsonValue) :=
  body

/-- A closed sample project used by concrete witnesses. -/
def sampleProject : Project :=
  { id := 1, team := "t-1", name := "A", slug := "a", dsn := "dsn://x",
    digested_event_count := 5, stored_event_count := 5,
    alert_on_new_issue := true, alert_on_regression := true,
    alert_on_unmute := true, visibility := "team_members",
    retention_max_event_count := 10000 }

/-- C5: `testConnection` always returns a `{success, message}` value and never
propagates the underlying error: it succeeds exactly on an ok outcome of the
inner listProjects call (an empty project list included, reporting the count),
and on a thrown error it returns success=false carrying the error's message. -/
theorem c5_test_connection (outcome : Except String (PaginatedResponse Project)) :
    ((testConnection outcome).success = true ↔ ∃ p, outcome = Except.ok p)
    ∧ (∀ e, outcome = Except.error e →
        testConnection outcome = { success := false, message := e })
    ∧ (∀ p, outcome = Except.ok p →
        testConnection outcome =
          { success := true,
            message := "Connected successfully. Found "
              ++ toString p.results.length ++ " project(s)." }) := by
  refine ⟨?_, ?_, ?_⟩
  · cases outcome <;> simp [testConnection]
  · intro e he; subst he; rfl
  · intro p hp; subst hp; rfl

/-- C5 witness: an empty project page is a success with count 0, and a thrown
error is converted, both evaluated concretely. -/
theorem c5_test_connection_witness :
    testConnection (Except.ok ⟨none, none, ([] : List Project)⟩)
      = { success := true, message := "Connected successfully. Found 0 project(s)." }
    ∧ testConnection (Except.error "boom")
      = { success := false, message := "boom" } :=
  ⟨(c5_test_connection (Except.ok ⟨none, none, []⟩)).2.2 _ rfl,
   (c5_test_connection (Except.error "boom")).2.1 _ rfl⟩

/-- C6: the response handling shared by every client method turns any non-2xx
response into the single error kind whose message carries the status code and
the raw body text, and a 2xx response never produces that error; at the
concrete input 404/"Not found" the message contains "404" and "Not found". -/
theorem c6_http_error (r : HttpResponse) :
    (responseOk r = false →
      fetchOutcome r = Except.error
        ("Bugsink API error (" ++ toString r.status ++ "): " ++ r.body))
    ∧ (responseOk r = true → fetchOutcome r = Except.ok r.body)
    ∧ fetchOutcome ⟨404, "Not found"⟩
        = Except.error "Bugsink API error (404): Not found"
    ∧ "404".toList <:+: "Bugsink API error (404): Not found".toList
    ∧ "Not found".toList <:+: "Bugsink API error (404): Not found".toList := by
  refine ⟨fun h => ?_, fun h => ?_, rfl, by decide, by decide⟩
  · simp [fetchOutcome, h]
  · simp [fetchOutcome, h]

/-- C6 witness: the 404 case falls in the error branch and a 200 response in
the ok branch, both discharged concretely. -/
theorem c6_http_error_witness :
    fetchOutcome ⟨404, "Not found"⟩
      = Except.error "Bugsink API error (404): Not found"
    ∧ fetchOutcome ⟨200, "{}"⟩ = Except.ok "{}" :=
  ⟨(c6_http_error ⟨404, "Not found"⟩).1 (by decide),
   (c6_http_error ⟨200, "{}"⟩).2.1 (by decide)⟩

/-- C10: in `listIssues` and `listEvents` field presence is tested by
truthiness, so a supplied limit of 0 or an empty status string is omitted
from the query exactly as if the field had not been supplied: the serialized
parameters of any options value coincide with those of its truthy
normalization, and limit=0 is indistinguishable from no limit at all. -/
theorem c10_truthiness_omission :
    (∀ (pid : Nat),
      listIssuesQuery pid (some { status := some "", limit := some 0 })
        = listIssuesQuery pid none)
    ∧ (∀ (pid : Nat) (s : String) (l : Nat),
        listIssuesQuery pid (some { status := some s, limit := some l })
          = listIssuesQuery pid
              (some { status := if s = "" then none else some s,
                      limit := if l = 0 then none else some l }))
    ∧ (∀ (iid : String),
        listEventsQuery iid (some { limit := some 0 })
          = listEventsQuery iid none)
    ∧ (∀ (iid : String) (l : Nat),
        listEventsQuery iid (some { limit := some l })
          = listEventsQuery iid (some { limit := if l = 0 then none else some l })) := by
  refine ⟨fun pid => rfl, fun pid s l => ?_, fun iid => rfl, fun iid l => ?_⟩
  · by_cases hs : s = "" <;> by_cases hl : l = 0 <;>
      simp [listIssuesQuery, hs, hl]
  · by_cases hl : l = 0 <;> simp [listEventsQuery, hl]

/-- C3 counterexample: status and limit both present (`some ""`, `some 0`)
yet neither is serialized — refuting "serialized ... exactly when the field
is present". -/
theorem c3_counterexample :
    (({ status := some "", limit := some 0 } : ListIssuesOptions).status.isSome
        = true
      ∧ ({ status := some "", limit := some 0 } : ListIssuesOptions).limit.isSome
        = true)
    ∧ listIssuesQuery 1 (some { status := some "", limit := some 0 })
        = [("project", "1")] := by
  exact ⟨⟨rfl, rfl⟩, rfl⟩

/-- C3 (amended): in the v0.1 client present in src/, status and limit are
serialized exactly when present AND truthy (status non-empty, limit non-zero),
with their values preserved, and absent fields are omitted entirely; in the
spec-modelled v0.2 client (absent from src/), each of status, limit, sort and
order is serialized exactly when present. -/
theorem c3_query_serialization (pid : Nat) (o : ListIssuesOptions)
    (o2 : ListIssuesOptionsV2) (iid : String) (eo : ListEventsOptions) :
    ("status" ∈ (listIssuesQuery pid (some o)).map Prod.fst
      ↔ ∃ s, o.status = some s ∧ s ≠ "")
    ∧ ("limit" ∈ (listIssuesQuery pid (some o)).map Prod.fst
      ↔ ∃ l, o.limit = some l ∧ l ≠ 0)
    ∧ (∀ s, o.status = some s → s ≠ "" →
        ("status", s) ∈ listIssuesQuery pid (some o))
    ∧ (∀ l, o.limit = some l → l ≠ 0 →
        ("limit", toString l) ∈ listIssuesQuery pid (some o))
    ∧ ("limit" ∈ (listEventsQuery iid (some eo)).map Prod.fst
      ↔ ∃ l, eo.limit = some l ∧ l ≠ 0)
    ∧ ("status" ∈ (listIssuesQueryV2 pid o2).map Prod.fst ↔ o2.status.isSome)
    ∧ ("limit" ∈ (listIssuesQueryV2 pid o2).map Prod.fst ↔ o2.limit.isSome)
    ∧ ("sort" ∈ (listIssuesQueryV2 pid o2).map Prod.fst ↔ o2.sort.isSome)
    ∧ ("order" ∈ (listIssuesQueryV2 pid o2).map Prod.fst ↔ o2.order.isSome) := by
  obtain ⟨os, ol⟩ := o
  obtain ⟨s2, l2, so2, or2⟩ := o2
  obtain ⟨el⟩ := eo
  refine ⟨?_, ?_, ?_, ?_, ?_, ?_, ?_, ?_, ?_⟩
  · rcases os with _ | s
    · rcases ol with _ | l
      · simp [listIssuesQuery]
      · by_cases h : l = 0 <;> simp [listIssuesQuery, h]
    · rcases ol with _ | l
      · by_cases h : s = "" <;> simp [listIssuesQuery, h]
      · by_cases h : s = "" <;> by_cases h' : l = 0 <;>
          simp [listIssuesQuery, h, h']
  · rcases ol with _ | l
    · rcases os with _ | s
      · simp [listIssuesQuery]
      · by_cases h : s = "" <;> simp [listIssuesQuery, h]
    · rcases os with _ | s
      · by_cases h : l = 0 <;> simp [listIssuesQuery, h]
      · by_cases h : s = "" <;> by_cases h' : l = 0 <;>
          simp [listIssuesQuery, h, h']
  · intro s hs hs'
    cases hs
    rcases ol with _ | l
    · simp [listIssuesQuery, hs']
    · by_cases h : l = 0 <;> simp [listIssuesQuery, hs', h]
  · intro l hl hl'
    cases hl
    rcases os with _ | s
    · simp [listIssuesQuery, hl']
    · by_cases h : s = "" <;> simp [listIssuesQuery, hl', h]
  · rcases el with _ | l
    · simp [listEventsQuery]
    · by_cases h : l = 0 <;> simp [listEventsQuery, h]
  · rcases s2 with _ | s <;> rcases l2 with _ | l <;>
      rcases so2 with _ | so <;> rcases or2 with _ | oo <;>
      simp [listIssuesQueryV2]
  · rcases s2 with _ | s <;> rcases l2 with _ | l <;>
      rcases so2 with _ | so <;> rcases or2 with _ | oo <;>
      simp [listIssuesQueryV2]
  · rcases s2 with _ | s <;> rcases l2 with _ | l <;>
      rcases so2 with _ | so <;> rcases or2 with _ | oo <;>
      simp [listIssuesQueryV2]
  · rcases s2 with _ | s <;> rcases l2 with _ | l <;>
      rcases so2 with _ | so <;> rcases or2 with _ | oo <;>
      simp [listIssuesQueryV2]

/-- C3 witness: truthy supplied fields are serialized and the falsy/absent
ones omitted, evaluated on concrete options. -/
theorem c3_query_serialization_witness :
    ("unresolved" : String) ≠ "" ∧ (25 : Nat) ≠ 0
    ∧ ("status", "unresolved")
        ∈ listIssuesQuery 1 (some { status := some "unresolved", limit := some 25 })
    ∧ ("limit", toString (25 : Nat))
        ∈ listIssuesQuery 1 (some { status := some "unresolved", limit := some 25 }) := by
  refine ⟨by decide, by decide, ?_, ?_⟩
  · exact (c3_query_serialization 1 { status := some "unresolved", limit := some 25 }
      {} "i" {}).2.2.1 "unresolved" rfl (by decide)
  · exact (c3_query_serialization 1 { status := some "unresolved", limit := some 25 }
      {} "i" {}).2.2.2.1 25 rfl (by decide)

/-- Helper: the head of a character-list concatenation is the head of a
non-empty left part. -/
theorem head_of_append {c : Char} {l : List Char} (m : List Char)
    (h : l.head? = some c) : (l ++ m).head? = some c := by
  cases l with
  | nil => simp at h
  | cons a t => simpa using h

/-- Helper: the head character of a string append is that of a non-empty
left part. -/
theorem str_head_append (s t : String) {c : Char}
    (h : s.data.head? = some c) : (s ++ t).data.head? = some c := by
  rw [String.data_append]
  exact head_of_append t.data h

/-- Helper: two strings with distinct head characters are distinct. -/
theorem ne_of_head_ne {s t : String} {c d : Char}
    (hs : s.data.head? = some c) (ht : t.data.head? = some d)
    (hcd : c ≠ d) : s ≠ t := by
  intro e
  subst e
  rw [hs] at ht
  exact hcd (Option.some.inj ht)

/-- Helper: the head of a triple string append starting at `Found `. -/
theorem found3_head (a b c : String) :
    ("Found " ++ a ++ b ++ c).data.head? = some 'F' :=
  str_head_append _ _ (str_head_append _ _ (str_head_append _ _ (by decide)))

/-- Helper: the head of the parameterized no-results messages. -/
theorem no_msg2_head (lit a b : String) (h : lit.data.head? = some 'N') :
    (lit ++ a ++ b).data.head? = some 'N' :=
  str_head_append _ _ (str_head_append _ _ h)

/-- C4: each list tool short-circuits an empty results array to exactly its
"no <resource> found" message (the message is produced iff the results are
empty, so no item formatting occurs), and a non-empty array yields the
"Found N <resource>(s)" header followed by one formatted entry per result. -/
theorem c4_empty_short_circuit (pr : PaginatedResponse Project)
    (tr : PaginatedResponse Team) (ir : PaginatedResponse Issue)
    (er : PaginatedResponse Event) (rr : PaginatedResponse Release)
    (pid : Nat) (iid : String) :
    (listProjectsText pr = "No projects found." ↔ pr.results = [])
    ∧ (pr.results ≠ [] →
        listProjectsText pr = "Found " ++ toString pr.results.length
          ++ " project(s):\n\n"
          ++ String.intercalate "\n" (pr.results.map projectLine))
    ∧ (listTeamsText tr = "No teams found." ↔ tr.results = [])
    ∧ (tr.results ≠ [] →
        listTeamsText tr = "Found " ++ toString tr.results.length
          ++ " team(s):\n\n"
          ++ String.intercalate "\n" (tr.results.map teamLine))
    ∧ (listIssuesText pid ir
        = "No issues found for project " ++ toString pid ++ "."
      ↔ ir.results = [])
    ∧ (ir.results ≠ [] →
        listIssuesText pid ir = "Found " ++ toString ir.results.length
          ++ " issue(s):\n\n"
          ++ String.intercalate "\n\n" (ir.results.map formatIssue))
    ∧ (listEventsText iid er = "No events found for issue " ++ iid ++ "."
      ↔ er.results = [])
    ∧ (er.results ≠ [] →
        listEventsText iid er = "Found " ++ toString er.results.length
          ++ " event(s):\n\n"
          ++ String.intercalate "\n\n---\n\n"
               (er.results.map (fun e => formatEvent e false)))
    ∧ (listReleasesText pid rr
        = "No releases found for project " ++ toString pid ++ "."
      ↔ rr.results = [])
    ∧ (rr.results ≠ [] →
        listReleasesText pid rr = "Found " ++ toString rr.results.length
          ++ " release(s):\n\n"
          ++ String.intercalate "\n" (rr.results.map releaseLine)) := by
  refine ⟨⟨fun h => ?_, fun h => by simp [listProjectsText, h]⟩, fun h => ?_,
    ⟨fun h => ?_, fun h => by simp [listTeamsText, h]⟩, fun h => ?_,
    ⟨fun h => ?_, fun h => by simp [listIssuesText, h]⟩, fun h => ?_,
    ⟨fun h => ?_, fun h => by simp [listEventsText, h]⟩, fun h => ?_,
    ⟨fun h => ?_, fun h => by simp [listReleasesText, h]⟩, fun h => ?_⟩
  · by_cases hr : pr.results = []
    · exact hr
    · have hl : pr.results.length ≠ 0 := by
        simpa [List.length_eq_zero] using hr
      rw [listProjectsText, if_neg hl] at h
      exact absurd h (ne_of_head_ne (d := 'N') (found3_head _ _ _)
        (by decide) (by decide))
  · have hl : pr.results.length ≠ 0 := by simpa [List.length_eq_zero] using h
    rw [listProjectsText, if_neg hl]
  · by_cases hr : tr.results = []
    · exact hr
    · have hl : tr.results.length ≠ 0 := by
        simpa [List.length_eq_zero] using hr
      rw [listTeamsText, if_neg hl] at h
      exact absurd h (ne_of_head_ne (d := 'N') (found3_head _ _ _)
        (by decide) (by decide))
  · have hl : tr.results.length ≠ 0 := by simpa [List.length_eq_zero] using h
    rw [listTeamsText, if_neg hl]
  · by_cases hr : ir.results = []
    · exact hr
    · have hl : ir.results.length ≠ 0 := by
        simpa [List.length_eq_zero] using hr
      rw [listIssuesText, if_neg hl] at h
      exact absurd h (ne_of_head_ne (found3_head _ _ _)
        (no_msg2_head _ _ _ (by decide)) (by decide))
  · have hl : ir.results.length ≠ 0 := by simpa [List.length_eq_zero] using h
    rw [listIssuesText, if_neg hl]
  · by_cases hr : er.results = []
    · exact hr
    · have hl : er.results.length ≠ 0 := by
        simpa [List.length_eq_zero] using hr
      rw [listEventsText, if_neg hl] at h
      exact absurd h (ne_of_head_ne (found3_head _ _ _)
        (no_msg2_head _ _ _ (by decide)) (by decide))
  · have hl : er.results.length ≠ 0 := by simpa [List.length_eq_zero] using h
    rw [listEventsText, if_neg hl]
  · by_cases hr : rr.results = []
    · exact hr
    · have hl : rr.results.length ≠ 0 := by
        simpa [List.length_eq_zero] using hr
      rw [listReleasesText, if_neg hl] at h
      exact absurd h (ne_of_head_ne (found3_head _ _ _)
        (no_msg2_head _ _ _ (by decide)) (by decide))
  · have hl : rr.results.length ≠ 0 := by simpa [List.length_eq_zero] using h
    rw [listReleasesText, if_neg hl]

/-- C4 witness: a one-project page renders the header plus one entry, and an
empty team page short-circuits, both discharged concretely. -/
theorem c4_empty_short_circuit_witness :
    listProjectsText ⟨none, none, [sampleProject]⟩
      = "Found " ++ toString [sampleProject].length ++ " project(s):\n\n"
        ++ String.intercalate "\n" ([sampleProject].map projectLine)
    ∧ listTeamsText ⟨none, none, ([] : List Team)⟩ = "No teams found." := by
  constructor
  · exact (c4_empty_short_circuit ⟨none, none, [sampleProject]⟩
      ⟨none, none, []⟩ ⟨none, none, []⟩ ⟨none, none, []⟩ ⟨none, none, []⟩
      1 "i").2.1 (by simp)
  · exact ((c4_empty_short_circuit ⟨none, none, [sampleProject]⟩
      ⟨none, none, ([] : List Team)⟩ ⟨none, none, []⟩ ⟨none, none, []⟩
      ⟨none, none, []⟩ 1 "i").2.2.1).mpr rfl

/-- Helper: a frame with only the required fields, used by concrete tests. -/
def mkFrame (nm : String) : StackFrame :=
  { filename := nm, function := "fn" }

/-- Helper: a concrete event whose single exception carries the given frame
list, used to observe the stacktrace rendering in isolation. -/
def framesEvent (fs : List StackFrame) : Event :=
  { id := "e", event_id := "E", issue := "i", project := 1, timestamp := "t",
    ingested_at := "in", digested_at := "d", digest_order := 0, grouping := 0,
    data := some
      { exception := some
          { values := some [{ type := "T", value := "V",
                              stacktrace := some ⟨fs⟩ }] } } }

/-- Helper (measurement): the number of rendered stack-frame location lines,
recognized by their six-space indent (context lines are excluded by
construction in the concrete tests, which use frames without context). -/
def frameLineCount (ls : List String) : Nat :=
  ls.countP (fun l => l.data.take 6 = "      ".data)

/-- Helper: n concrete frames named f0..f(n-1). -/
def sampleFrames (n : Nat) : List StackFrame :=
  (List.range n).map (fun k => mkFrame ("f" ++ toString k))

/-- C2 counterexample: the claim says the legacy single-block formatter
truncates the reversed frame list to its first 10 frames, so an event with 12
frames would render 10 frame lines; the formatter (identical in both shipped
versions, src/src/index.ts lines 92-103 and 433-444) uses `slice(0, 15)` and
renders all 12. -/
theorem c2_counterexample :
    frameLineCount (formatEventLines (framesEvent (sampleFrames 12)) true) = 12
    ∧ frameLineCount (formatEventLines (framesEvent (sampleFrames 12)) true)
        ≠ 10 := by
  constructor
  · rfl
  · intro h
    rw [show frameLineCount (formatEventLines (framesEvent (sampleFrames 12))
        true) = 12 from rfl] at h
    exact absurd h (by decide)

/-- C2 (amended): both event formatters (the two shipped versions are
textually identical) render the raw frame list reversed and truncated to its
first 15 frames: frames [A,B,C] render as [C,B,A], and a 20-frame stacktrace
is capped at 15 rendered frames. -/
theorem c2_stacktrace_render :
    (∀ fs : List StackFrame,
      formatEventLines (framesEvent fs) true
        = ["Event e", "  Event ID: E", "  Timestamp: t", "  Ingested: in",
           "  Exception:", "    T: V", "    Stacktrace (most recent first):"]
          ++ (fs.reverse.take 15).flatMap frameLines)
    ∧ formatEventLines (framesEvent [mkFrame "A", mkFrame "B", mkFrame "C"]) true
        = ["Event e", "  Event ID: E", "  Timestamp: t", "  Ingested: in",
           "  Exception:", "    T: V", "    Stacktrace (most recent first):",
           "      C in fn", "      B in fn", "      A in fn"]
    ∧ frameLineCount (formatEventLines (framesEvent (sampleFrames 20)) true)
        = 15 := by
  refine ⟨fun fs => ?_, rfl, rfl⟩
  simp [formatEventLines, framesEvent, exceptionLines, excLines, strOptLine,
    requestLines, agentLines]

/-- Helper: membership in a single optional body entry. -/
theorem mem_optEntry {k k' : String} {v : JsonValue} {o : Option JsonValue} :
    (k, v) ∈ optEntry k' o ↔ k = k' ∧ o = some v := by
  cases o with
  | none => simp [optEntry]
  | some w =>
    simp only [optEntry, List.mem_singleton, Prod.mk.injEq, Option.some.injEq]
    constructor
    · rintro ⟨h1, h2⟩; exact ⟨h1, h2.symm⟩
    · rintro ⟨h1, h2⟩; exact ⟨h1, h2.symm⟩

/-- Helper: the key list contributed by a single optional body entry. -/
theorem map_fst_optEntry (k : String) (o : Option JsonValue) :
    (optEntry k o).map Prod.fst = if o.isSome then [k] else [] := by
  cases o <;> simp [optEntry]

/-- C7: the bodies built by update_project and update_team contain exactly
the keys the caller explicitly provided — each key/value pair is in the sent
body iff the corresponding argument was supplied with that value (so
explicitly provided `false` and empty strings are included), and the key set
is exactly the set of supplied fields (absent fields are excluded entirely,
not sent as null — the embedded body has no null value at all). -/
theorem c7_partial_update (u : ProjectUpdateArgs) (t : TeamUpdateArgs) :
    (∀ s, ("name", JsonValue.str s) ∈ sentUpdateBody (updateProjectBody u)
      ↔ u.name = some s)
    ∧ (∀ s, ("visibility", JsonValue.str s) ∈ sentUpdateBody (updateProjectBody u)
      ↔ u.visibility = some s)
    ∧ (∀ b, ("alert_on_new_issue", JsonValue.bool b)
        ∈ sentUpdateBody (updateProjectBody u) ↔ u.alert_on_new_issue = some b)
    ∧ (∀ b, ("alert_on_regression", JsonValue.bool b)
        ∈ sentUpdateBody (updateProjectBody u) ↔ u.alert_on_regression = some b)
    ∧ (∀ b, ("alert_on_unmute", JsonValue.bool b)
        ∈ sentUpdateBody (updateProjectBody u) ↔ u.alert_on_unmute = some b)
    ∧ (∀ n, ("retention_max_event_count", JsonValue.num n)
        ∈ sentUpdateBody (updateProjectBody u)
      ↔ u.retention_max_event_count = some n)
    ∧ (∀ k, k ∈ (sentUpdateBody (updateProjectBody u)).map Prod.fst
      ↔ (k = "name" ∧ u.name.isSome)
        ∨ (k = "visibility" ∧ u.visibility.isSome)
        ∨ (k = "alert_on_new_issue" ∧ u.alert_on_new_issue.isSome)
        ∨ (k = "alert_on_regression" ∧ u.alert_on_regression.isSome)
        ∨ (k = "alert_on_unmute" ∧ u.alert_on_unmute.isSome)
        ∨ (k = "retention_max_event_count"
            ∧ u.retention_max_event_count.isSome))
    ∧ (∀ s, ("name", JsonValue.str s) ∈ sentUpdateBody (updateTeamBody t)
      ↔ t.name = some s)
    ∧ (∀ s, ("visibility", JsonValue.str s) ∈ sentUpdateBody (updateTeamBody t)
      ↔ t.visibility = some s)
    ∧ (∀ k, k ∈ (sentUpdateBody (updateTeamBody t)).map Prod.fst
      ↔ (k = "name" ∧ t.name.isSome)
        ∨ (k = "visibility" ∧ t.visibility.isSome)) := by
  obtain ⟨n1, v1, a1, a2, a3, r1⟩ := u
  obtain ⟨tn, tv⟩ := t
  refine ⟨fun s => ?_, fun s => ?_, fun b => ?_, fun b => ?_, fun b => ?_,
    fun n => ?_, fun k => ?_, fun s => ?_, fun s => ?_, fun k => ?_⟩
  · simp [sentUpdateBody, updateProjectBody, List.mem_append, mem_optEntry,
      Option.map_eq_some']
  · simp [sentUpdateBody, updateProjectBody, List.mem_append, mem_optEntry,
      Option.map_eq_some']
  · simp [sentUpdateBody, updateProjectBody, List.mem_append, mem_optEntry,
      Option.map_eq_some']
  · simp [sentUpdateBody, updateProjectBody, List.mem_append, mem_optEntry,
      Option.map_eq_some']
  · simp [sentUpdateBody, updateProjectBody, List.mem_append, mem_optEntry,
      Option.map_eq_some']
  · simp [sentUpdateBody, updateProjectBody, List.mem_append, mem_optEntry,
      Option.map_eq_some']
  · simp only [sentUpdateBody, updateProjectBody, List.map_append,
      map_fst_optEntry, List.mem_append]
    rcases n1 with _ | n1 <;> rcases v1 with _ | v1 <;>
      rcases a1 with _ | a1 <;> rcases a2 with _ | a2 <;>
      rcases a3 with _ | a3 <;> rcases r1 with _ | r1 <;> simp [or_assoc]
  · simp [sentUpdateBody, updateTeamBody, List.mem_append, mem_optEntry,
      Option.map_eq_some']
  · simp [sentUpdateBody, updateTeamBody, List.mem_append, mem_optEntry,
      Option.map_eq_some']
  · simp only [sentUpdateBody, updateTeamBody, List.map_append,
      map_fst_optEntry, List.mem_append]
    rcases tn with _ | tn <;> rcases tv with _ | tv <;> simp [or_assoc]

/-- C7 witness: an explicitly supplied `false` and an explicitly supplied
empty string are included in the sent body, evaluated concretely. -/
theorem c7_partial_update_witness :
    ("alert_on_new_issue", JsonValue.bool false)
      ∈ sentUpdateBody (updateProjectBody { alert_on_new_issue := some false })
    ∧ ("name", JsonValue.str "")
      ∈ sentUpdateBody (updateTeamBody { name := some "" })
    ∧ (sentUpdateBody
        (updateProjectBody { alert_on_new_issue := some false })).map Prod.fst
      = ["alert_on_new_issue"] := by
  refine ⟨?_, ?_, rfl⟩
  · exact ((c7_partial_update { alert_on_new_issue := some false }
      {}).2.2.1 false).mpr rfl
  · exact ((c7_partial_update { alert_on_new_issue := some false }
      { name := some "" }).2.2.2.2.2.2.2.1 "").mpr rfl

/-- Helper: event data holding a single exception with the given type, value
and stacktrace and nothing else, used to exercise partial payloads. -/
def soleExcData (t v : String) (st : Option Stacktrace) : EventData :=
  { exception := some { values := some [{ type := t, value := v,
                                          stacktrace := st }] } }

/-- C9: event formatting is total on partial payloads — a missing data
object, a missing exception block, a missing values array, a missing
stacktrace, or an empty frame list each renders as if absent (the header
lines, plus whatever nested data does exist), never as a failure. -/
theorem c9_missing_payload (e : Event) (b : Bool) (t v : String) :
    (formatEventLines { e with data := none } b
      = ["Event " ++ e.id, "  Event ID: " ++ e.event_id,
         "  Timestamp: " ++ e.timestamp, "  Ingested: " ++ e.ingested_at])
    ∧ (formatEventLines { e with data := some {} } b
      = ["Event " ++ e.id, "  Event ID: " ++ e.event_id,
         "  Timestamp: " ++ e.timestamp, "  Ingested: " ++ e.ingested_at])
    ∧ (formatEventLines { e with data := some { exception := some {} } } b
      = ["Event " ++ e.id, "  Event ID: " ++ e.event_id,
         "  Timestamp: " ++ e.timestamp, "  Ingested: " ++ e.ingested_at])
    ∧ (formatEventLines { e with data := some (soleExcData t v none) } b
      = ["Event " ++ e.id, "  Event ID: " ++ e.event_id,
         "  Timestamp: " ++ e.timestamp, "  Ingested: " ++ e.ingested_at,
         "  Exception:", "    " ++ t ++ ": " ++ v])
    ∧ (formatEventLines
        { e with data := some (soleExcData t v (some ⟨[]⟩)) } true
      = ["Event " ++ e.id, "  Event ID: " ++ e.event_id,
         "  Timestamp: " ++ e.timestamp, "  Ingested: " ++ e.ingested_at,
         "  Exception:", "    " ++ t ++ ": " ++ v,
         "    Stacktrace (most recent first):"]) := by
  refine ⟨?_, ?_, ?_, ?_, ?_⟩ <;>
    simp [formatEventLines, soleExcData, strOptLine, exceptionLines, excLines,
      requestLines, agentLines]

/-- Helper: a concrete event whose exception block is present with an empty
values array. -/
def emptyValuesEvent : Event :=
  { id := "e1", event_id := "E1", issue := "i", project := 1, timestamp := "t",
    ingested_at := "in", digested_at := "d", digest_order := 0, grouping := 0,
    data := some { exception := some { values := some [] } } }

/-- Helper: the same event with the exception field omitted. -/
def omittedExceptionEvent : Event :=
  { id := "e1", event_id := "E1", issue := "i", project := 1, timestamp := "t",
    ingested_at := "in", digested_at := "d", digest_order := 0, grouping := 0,
    data := some {} }

/-- C8 counterexample: emptying the exception field (values present but
empty) does not remove the exception line — a dangling `  Exception:` header
remains, so the output differs from the field-omitted output by a leftover
header rather than by nothing. -/
theorem c8_counterexample :
    formatEventLines emptyValuesEvent true
      = formatEventLines omittedExceptionEvent true ++ ["  Exception:"]
    ∧ formatEvent emptyValuesEvent true ≠ formatEvent omittedExceptionEvent true := by
  exact ⟨rfl, by decide⟩

/-- Helper: the with-field rendering differs from the without-field rendering
by exactly one inserted line — no blank line, no placeholder, all other lines
unchanged. -/
def addsExactlyLine (without withL : List String) (line : String) : Prop :=
  ∃ pre post, without = pre ++ post ∧ withL = pre ++ line :: post

/-- C8 (amended): for the optional display fields transaction, level,
platform, message, request, browser, os and semver, omitting or emptying the
field removes exactly that field's line (no blank line, no placeholder, all
other lines unchanged); the exception block however is gated on the presence
of its values array, not on its non-emptiness, so an empty exception list
leaves a dangling `  Exception:` header (see the counterexample). -/
theorem c8_optional_lines (i : Issue) (e : Event) (d : EventData) (b : Bool)
    (s u n : String) (m vv : Option String)
    (hd : Option (List (String × String))) (r : Release) :
    (s ≠ "" →
      addsExactlyLine (formatIssueLines { i with transaction := "" })
        (formatIssueLines { i with transaction := s })
        ("  Transaction: " ++ s))
    ∧ (s ≠ "" →
      addsExactlyLine
        (formatEventLines { e with data := some { d with level := none } } b)
        (formatEventLines { e with data := some { d with level := some s } } b)
        ("  Level: " ++ s))
    ∧ (formatEventLines { e with data := some { d with level := some "" } } b
        = formatEventLines { e with data := some { d with level := none } } b)
    ∧ (s ≠ "" →
      addsExactlyLine
        (formatEventLines { e with data := some { d with platform := none } } b)
        (formatEventLines { e with data := some { d with platform := some s } } b)
        ("  Platform: " ++ s))
    ∧ (formatEventLines { e with data := some { d with platform := some "" } } b
        = formatEventLines { e with data := some { d with platform := none } } b)
    ∧ (s ≠ "" →
      addsExactlyLine
        (formatEventLines { e with data := some { d with message := none } } b)
        (formatEventLines { e with data := some { d with message := some s } } b)
        ("  Message: " ++ s))
    ∧ (formatEventLines { e with data := some { d with message := some "" } } b
        = formatEventLines { e with data := some { d with message := none } } b)
    ∧ (u ≠ "" →
      ∃ line, addsExactlyLine
        (formatEventLines { e with data := some { d with request := none } } b)
        (formatEventLines
          { e with data := some { d with request := some ⟨some u, m, hd⟩ } } b)
        line)
    ∧ (formatEventLines
        { e with data := some { d with request := some ⟨none, m, hd⟩ } } b
      = formatEventLines { e with data := some { d with request := none } } b)
    ∧ (n ≠ "" →
      ∃ line, addsExactlyLine
        (formatEventLines { e with data := some { d with browser := none } } b)
        (formatEventLines
          { e with data := some { d with browser := some ⟨some n, vv⟩ } } b)
        line)
    ∧ (formatEventLines
        { e with data := some { d with browser := some ⟨some "", vv⟩ } } b
      = formatEventLines { e with data := some { d with browser := none } } b)
    ∧ (n ≠ "" →
      ∃ line, addsExactlyLine
        (formatEventLines { e with data := some { d with os := none } } b)
        (formatEventLines
          { e with data := some { d with os := some ⟨some n, vv⟩ } } b)
        line)
    ∧ (formatEventLines
        { e with data := some { d with os := some ⟨none, vv⟩ } } b
      = formatEventLines { e with data := some { d with os := none } } b)
    ∧ (s ≠ "" →
      addsExactlyLine (formatReleaseLines { r with semver := none })
        (formatReleaseLines { r with semver := some s }) ("  Semver: " ++ s))
    ∧ (formatReleaseLines { r with semver := some "" }
        = formatReleaseLines { r with semver := none }) := by
  refine ⟨fun hs => ?_, fun hs => ?_, ?_, fun hs => ?_, ?_, fun hs => ?_, ?_,
    fun hu => ?_, ?_, fun hn => ?_, ?_, fun hn => ?_, ?_, fun hs => ?_, ?_⟩
  · refine ⟨["[" ++ i.calculated_type ++ "] " ++ i.calculated_value,
      "  ID: " ++ i.id, "  Status: " ++ getIssueStatus i,
      "  Occurrences: " ++ toString i.digested_event_count,
      "  First seen: " ++ i.first_seen, "  Last seen: " ++ i.last_seen],
      [], ?_, ?_⟩
    · simp [formatIssueLines, getIssueStatus]
    · simp [formatIssueLines, getIssueStatus, hs]
  · refine ⟨["Event " ++ e.id, "  Event ID: " ++ e.event_id,
      "  Timestamp: " ++ e.timestamp, "  Ingested: " ++ e.ingested_at],
      strOptLine "  Platform: " d.platform ++ strOptLine "  Message: " d.message
        ++ exceptionLines b d.exception ++ requestLines d.request
        ++ agentLines "  Browser: " d.browser ++ agentLines "  OS: " d.os,
      ?_, ?_⟩
    · simp [formatEventLines, strOptLine]
    · simp [formatEventLines, strOptLine, hs]
  · simp [formatEventLines, strOptLine]
  · refine ⟨["Event " ++ e.id, "  Event ID: " ++ e.event_id,
      "  Timestamp: " ++ e.timestamp, "  Ingested: " ++ e.ingested_at]
        ++ strOptLine "  Level: " d.level,
      strOptLine "  Message: " d.message
        ++ exceptionLines b d.exception ++ requestLines d.request
        ++ agentLines "  Browser: " d.browser ++ agentLines "  OS: " d.os,
      ?_, ?_⟩
    · simp [formatEventLines, strOptLine]
    · simp [formatEventLines, strOptLine, hs]
  · simp [formatEventLines, strOptLine]
  · refine ⟨["Event " ++ e.id, "  Event ID: " ++ e.event_id,
      "  Timestamp: " ++ e.timestamp, "  Ingested: " ++ e.ingested_at]
        ++ strOptLine "  Level: " d.level ++ strOptLine "  Platform: " d.platform,
      exceptionLines b d.exception ++ requestLines d.request
        ++ agentLines "  Browser: " d.browser ++ agentLines "  OS: " d.os,
      ?_, ?_⟩
    · simp [formatEventLines, strOptLine]
    · simp [formatEventLines, strOptLine, hs]
  · simp [formatEventLines, strOptLine]
  · refine ⟨"  Request: "
        ++ (match m with | some mm => if mm = "" then "GET" else mm | none => "GET")
        ++ " " ++ u,
      ["Event " ++ e.id, "  Event ID: " ++ e.event_id,
        "  Timestamp: " ++ e.timestamp, "  Ingested: " ++ e.ingested_at]
        ++ strOptLine "  Level: " d.level ++ strOptLine "  Platform: " d.platform
        ++ strOptLine "  Message: " d.message ++ exceptionLines b d.exception,
      agentLines "  Browser: " d.browser ++ agentLines "  OS: " d.os,
      ?_, ?_⟩
    · simp [formatEventLines, requestLines]
    · simp [formatEventLines, requestLines, hu]
  · simp [formatEventLines, requestLines]
  · refine ⟨"  Browser: " ++ n ++ " "
        ++ (match vv with | some x => x | none => ""),
      ["Event " ++ e.id, "  Event ID: " ++ e.event_id,
        "  Timestamp: " ++ e.timestamp, "  Ingested: " ++ e.ingested_at]
        ++ strOptLine "  Level: " d.level ++ strOptLine "  Platform: " d.platform
        ++ strOptLine "  Message: " d.message ++ exceptionLines b d.exception
        ++ requestLines d.request,
      agentLines "  OS: " d.os, ?_, ?_⟩
    · simp [formatEventLines, agentLines]
    · simp [formatEventLines, agentLines, hn]
  · simp [formatEventLines, agentLines]
  · refine ⟨"  OS: " ++ n ++ " "
        ++ (match vv with | some x => x | none => ""),
      ["Event " ++ e.id, "  Event ID: " ++ e.event_id,
        "  Timestamp: " ++ e.timestamp, "  Ingested: " ++ e.ingested_at]
        ++ strOptLine "  Level: " d.level ++ strOptLine "  Platform: " d.platform
        ++ strOptLine "  Message: " d.message ++ exceptionLines b d.exception
        ++ requestLines d.request ++ agentLines "  Browser: " d.browser,
      [], ?_, ?_⟩
    · simp [formatEventLines, agentLines]
    · simp [formatEventLines, agentLines, hn]
  · simp [formatEventLines, agentLines]
  · refine ⟨["Release: " ++ (if r.version = "" then "(empty)" else r.version),
      "  ID: " ++ r.id, "  Project: " ++ toString r.project,
      "  Released: " ++ r.date_released],
      (match r.is_semver with
       | some bb => ["  Is Semver: " ++ toString bb]
       | none => []), ?_, ?_⟩
    · rcases hv : r.is_semver with _ | bb <;> simp [formatReleaseLines, hv]
    · rcases hv : r.is_semver with _ | bb <;> simp [formatReleaseLines, hv, hs]
  · rcases hv : r.is_semver with _ | bb <;> simp [formatReleaseLines, hv]

/-- C8 witness: adding a non-empty transaction to a concrete issue inserts
exactly the transaction line, discharged concretely. -/
theorem c8_optional_lines_witness :
    ("GET /" : String) ≠ ""
    ∧ addsExactlyLine (formatIssueLines { sampleIssue with transaction := "" })
        (formatIssueLines { sampleIssue with transaction := "GET /" })
        ("  Transaction: " ++ "GET /") := by
  refine ⟨by decide, ?_⟩
  exact (c8_optional_lines sampleIssue (framesEvent []) {} true "GET /" "u" "n"
    none none none ⟨"r1", 1, "1.0", "2024-01-01", none, none⟩).1 (by decide)
